import Mathlib

set_option linter.unusedVariables false

/-!
Verification of the IW44 FFI bridge (DJVU-Encoder-Rust repository).

The development shallowly embeds the two C++ source files:
  * `src/src/ffi/simple_iw44_bridge.cpp` — the low-level slice primitive
    `iw44_encode_slice_simple`;
  * `src/src/ffi/iw44_bridge.cpp` — the session bridge
    (`iw44_encoder_new_grayscale`, `iw44_encode_chunk`, `iw44_get_slices`,
    `iw44_get_bytes`, `iw44_encoder_free`).

C pointers are embedded as `Option`/`Bool` values (`none`/`false` stands for a
null pointer); machine integers are embedded as `Int`, with `% 256` where the C
code truncates to a byte.  Out-parameters are embedded as `Option` fields of
the result record: `none` means the call never wrote through that pointer.
-/

namespace IW44

/-- Result of one call to the low-level slice primitive: the returned status,
the values written through the `next_bit`, `next_band` and `output_size`
out-parameters (`none` when the call did not write through them), and the
bytes written into the caller-provided output buffer. -/
structure SliceResult where
  status : Int
  nextBit : Option Int
  nextBand : Option Int
  outSize : Option Int
  written : List Nat
  deriving Repr, DecidableEq

/-- Embedding of `iw44_encode_slice_simple` from
`src/src/ffi/simple_iw44_bridge.cpp`.  Pointer arguments are `Option`/`Bool`
values; `output_size` carries the capacity the caller passed in through the
`*output_size` in/out parameter (`none` = null pointer).  The C body:
null-checks `coeffs`, `output_buffer`, `output_size`, `next_bit`, `next_band`
(and nothing else — the two quantization-table pointers are never examined);
then advances the cursor, wrapping the band at 10 and decrementing the bit
plane on wrap; then writes the four dummy bytes when the stated capacity is at
least 4, else sets the output size to 0; finally returns 1 when the new bit
plane is still nonnegative and 0 otherwise. -/
def iw44_encode_slice_simple
    (coeffs : Option (List Int)) (num_coeffs width height : Int)
    (cur_bit cur_band : Int)
    (quant_lo quant_hi : Option (List Int))
    (output_buffer : Bool) (output_size : Option Int)
    (next_bit next_band : Bool) : SliceResult :=
  if coeffs = none ∨ output_buffer = false ∨ output_size = none
      ∨ next_bit = false ∨ next_band = false then
    { status := -1, nextBit := none, nextBand := none, outSize := none,
      written := [] }
  else
    let in_size := output_size.getD 0
    let new_band := cur_band + 1
    let out_band := if new_band ≥ 10 then 0 else new_band
    let out_bit := if new_band ≥ 10 then cur_bit - 1 else cur_bit
    let bytes : List Nat :=
      if in_size ≥ 4 then
        [(cur_bit % 256).toNat, (cur_band % 256).toNat, 0xAA, 0xBB]
      else []
    let out_size : Int := if in_size ≥ 4 then 4 else 0
    { status := if out_bit ≥ 0 then 1 else 0,
      nextBit := some out_bit, nextBand := some out_band,
      outSize := some out_size, written := bytes }

/-- The non-cursor arguments of a slice call, bundled: a valid (all pointers
non-null) calling context for the primitive. -/
structure SliceArgs where
  coeffs : List Int
  num_coeffs : Int
  width : Int
  height : Int
  quant_lo : List Int
  quant_hi : List Int
  capacity : Int
  deriving Repr, DecidableEq

/-- One call of the primitive with all pointers valid, at cursor
`(bit, band)`. -/
def sliceCall (a : SliceArgs) (bit band : Int) : SliceResult :=
  iw44_encode_slice_simple (some a.coeffs) a.num_coeffs a.width a.height
    bit band (some a.quant_lo) (some a.quant_hi) true (some a.capacity)
    true true

theorem sliceCall_nextBit (a : SliceArgs) (bit band : Int) :
    (sliceCall a bit band).nextBit
      = some (if band + 1 ≥ 10 then bit - 1 else bit) := by
  simp [sliceCall, iw44_encode_slice_simple]

theorem sliceCall_nextBand (a : SliceArgs) (bit band : Int) :
    (sliceCall a bit band).nextBand
      = some (if band + 1 ≥ 10 then 0 else band + 1) := by
  simp [sliceCall, iw44_encode_slice_simple]

theorem sliceCall_status (a : SliceArgs) (bit band : Int) :
    (sliceCall a bit band).status
      = if (if band + 1 ≥ 10 then bit - 1 else bit) ≥ 0 then 1 else 0 := by
  simp [sliceCall, iw44_encode_slice_simple]

theorem sliceCall_written (a : SliceArgs) (bit band : Int) :
    (sliceCall a bit band).written
      = if a.capacity ≥ 4 then
          [(bit % 256).toNat, (band % 256).toNat, 0xAA, 0xBB]
        else [] := by
  simp [sliceCall, iw44_encode_slice_simple]

theorem sliceCall_outSize (a : SliceArgs) (bit band : Int) :
    (sliceCall a bit band).outSize
      = some (if a.capacity ≥ 4 then 4 else 0) := by
  simp [sliceCall, iw44_encode_slice_simple]

/-- Cursor reached after `k` calls of the primitive, starting from
`(bit plane b, band 0)` and feeding each returned next cursor back in. -/
def sliceCursorAt (a : SliceArgs) (b : Int) : Nat → Int × Int
  | 0 => (b, 0)
  | k + 1 =>
      let c := sliceCursorAt a b k
      let r := sliceCall a c.1 c.2
      (r.nextBit.getD 0, r.nextBand.getD 0)

/-- Status returned by call number `k + 1` in that sequence (the call made
from the cursor reached after `k` calls). -/
def sliceStatusAt (a : SliceArgs) (b : Int) (k : Nat) : Int :=
  (sliceCall a (sliceCursorAt a b k).1 (sliceCursorAt a b k).2).status

theorem sliceCursorAt_closed (a : SliceArgs) (b : Int) (k : Nat) :
    sliceCursorAt a b k = (b - (k / 10 : Nat), ((k % 10 : Nat) : Int)) := by
  induction k with
  | zero => simp [sliceCursorAt]
  | succ k ih =>
      rw [sliceCursorAt, ih]
      simp only [sliceCall_nextBit, sliceCall_nextBand, Option.getD_some]
      rw [Prod.mk.injEq]
      constructor
      · split_ifs with hw <;> omega
      · split_ifs with hw <;> omega

theorem sliceStatusAt_closed (a : SliceArgs) (b : Int) (k : Nat) :
    sliceStatusAt a b k = if b - ((k + 1) / 10 : Nat) ≥ 0 then 1 else 0 := by
  rw [sliceStatusAt, sliceCursorAt_closed, sliceCall_status]
  split_ifs <;> omega

/-- A concrete valid calling context used by witnesses. -/
def sampleArgs : SliceArgs :=
  ⟨[0], 1, 1, 1, List.replicate 16 1, List.replicate 10 1, 16⟩

/-- C1: with all pointers non-null and a current band in `0..9`, the primitive
returns next band `(band + 1) % 10`; the bit plane decrements exactly when the
band wraps to 0 and is unchanged otherwise, so band and bit plane never both
change except at the wrap point (the band itself always changes). -/
theorem slice_cursor_advances (a : SliceArgs) (bit band : Int)
    (hb0 : 0 ≤ band) (hb1 : band < 10) :
    (sliceCall a bit band).nextBand = some ((band + 1) % 10) ∧
    (sliceCall a bit band).nextBit
      = some (if (band + 1) % 10 = 0 then bit - 1 else bit) ∧
    (band + 1) % 10 ≠ band ∧
    ((band + 1) % 10 ≠ 0 → (sliceCall a bit band).nextBit = some bit) := by
  refine ⟨?_, ?_, ?_, ?_⟩
  · rw [sliceCall_nextBand]
    congr 1
    split_ifs <;> omega
  · rw [sliceCall_nextBit]
    congr 1
    split_ifs <;> omega
  · omega
  · intro hnz
    rw [sliceCall_nextBit]
    congr 1
    split_ifs with h1 <;> omega

/-- Witness for C1 at the concrete input: bit plane 5, band 9 (the wrap
point). -/
theorem slice_cursor_advances_witness :
    (sliceCall sampleArgs 5 9).nextBand = some ((9 + 1) % 10) ∧
    (sliceCall sampleArgs 5 9).nextBit
      = some (if ((9 : Int) + 1) % 10 = 0 then 5 - 1 else 5) ∧
    ((9 : Int) + 1) % 10 ≠ 9 ∧
    (((9 : Int) + 1) % 10 ≠ 0 → (sliceCall sampleArgs 5 9).nextBit = some 5) :=
  slice_cursor_advances sampleArgs 5 9 (by norm_num) (by norm_num)

/-- C2: starting from bit plane `b ≥ 0` and band 0 and feeding each returned
next cursor back in, call number `(b + 1) * 10` is the one that returns DONE
(0), and every call before it returns MORE (1); in general a call with valid
pointers returns MORE exactly when its returned next bit plane is ≥ 0 and
DONE exactly when it has crossed below 0. -/
theorem slice_termination (a : SliceArgs) (b : Nat) :
    sliceStatusAt a (b : Int) ((b + 1) * 10 - 1) = 0 ∧
    (∀ k : Nat, k < (b + 1) * 10 - 1 → sliceStatusAt a (b : Int) k = 1) ∧
    (∀ bit band : Int,
      ((sliceCall a bit band).status = 1 ↔
        ∃ nb : Int, (sliceCall a bit band).nextBit = some nb ∧ 0 ≤ nb) ∧
      ((sliceCall a bit band).status = 0 ↔
        ∃ nb : Int, (sliceCall a bit band).nextBit = some nb ∧ nb < 0)) := by
  refine ⟨?_, ?_, ?_⟩
  · rw [sliceStatusAt_closed]
    split_ifs with h <;> omega
  · intro k hk
    rw [sliceStatusAt_closed]
    split_ifs with h <;> omega
  · intro bit band
    simp only [sliceCall_status, sliceCall_nextBit, Option.some.injEq]
    constructor
    · constructor
      · intro h1
        refine ⟨if band + 1 ≥ 10 then bit - 1 else bit, rfl, ?_⟩
        split_ifs at h1 ⊢ with hw hg hg <;> omega
      · rintro ⟨nb, rfl, hnb⟩
        split_ifs with hg <;> omega
    · constructor
      · intro h0
        refine ⟨if band + 1 ≥ 10 then bit - 1 else bit, rfl, ?_⟩
        split_ifs at h0 ⊢ with hw hg hg <;> omega
      · rintro ⟨nb, rfl, hnb⟩
        split_ifs with hg <;> omega

/-- C10: with all pointers non-null, two calls that agree on the current bit
plane, current band and stated output capacity return identical results —
status, next cursor, reported size and written bytes — whatever the
coefficients, their count, the dimensions and the contents of both
quantization tables are. -/
theorem slice_result_data_independent
    (cs1 cs2 ql1 ql2 qh1 qh2 : List Int) (n1 n2 w1 w2 h1 h2 : Int)
    (bit band cap : Int) :
    iw44_encode_slice_simple (some cs1) n1 w1 h1 bit band (some ql1)
        (some qh1) true (some cap) true true
      = iw44_encode_slice_simple (some cs2) n2 w2 h2 bit band (some ql2)
        (some qh2) true (some cap) true true := by
  simp [iw44_encode_slice_simple]

/-- The concrete scenario of the spec: a 4×4 plane of all-zero coefficients,
all-ones quantization tables, an ample output buffer. -/
def fourByFourArgs : SliceArgs :=
  ⟨List.replicate 16 0, 16, 4, 4, List.replicate 16 1, List.replicate 10 1,
    1024⟩

/-- Counterexample to C5 as stated: in the concrete scenario, the FIRST call
from cursor (bit plane 0, band 0) returns next cursor (0, 1) with status MORE
(1), not the cursor (-1, 0) with status DONE. -/
theorem first_call_not_done :
    (sliceCall fourByFourArgs 0 0).nextBit = some 0 ∧
    (sliceCall fourByFourArgs 0 0).nextBand = some 1 ∧
    (sliceCall fourByFourArgs 0 0).status = 1 ∧
    ¬ ((sliceCall fourByFourArgs 0 0).nextBit = some (-1) ∧
        (sliceCall fourByFourArgs 0 0).nextBand = some 0 ∧
        (sliceCall fourByFourArgs 0 0).status = 0) := by
  decide

/-- C5 as amended: in the concrete scenario the first call returns next cursor
(bit plane 0, band 1) and status MORE; each of the first nine calls returns
MORE, and the tenth call — made from cursor (0, 9) — returns next cursor
(-1, 0) and status DONE, the band wrapping from 9 to 0 while the bit plane
decrements from 0 to -1. -/
theorem ten_calls_to_done :
    (sliceCall fourByFourArgs 0 0).nextBit = some 0 ∧
    (sliceCall fourByFourArgs 0 0).nextBand = some 1 ∧
    (∀ k : Nat, k < 9 → sliceStatusAt fourByFourArgs 0 k = 1) ∧
    sliceCursorAt fourByFourArgs 0 9 = (0, 9) ∧
    sliceStatusAt fourByFourArgs 0 9 = 0 ∧
    sliceCursorAt fourByFourArgs 0 10 = (-1, 0) := by
  decide

/-- Counterexample to C6 as stated: with valid pointers and a stated capacity
of 3 (smaller than the 4 bytes the slice produces), the call does NOT report
an error — it returns the ordinary MORE status. -/
theorem undersized_buffer_not_error :
    (iw44_encode_slice_simple (some [0]) 1 1 1 0 0
        (some (List.replicate 16 1)) (some (List.replicate 10 1)) true
        (some 3) true true).status = 1 ∧
    ¬ (iw44_encode_slice_simple (some [0]) 1 1 1 0 0
        (some (List.replicate 16 1)) (some (List.replicate 10 1)) true
        (some 3) true true).status = -1 := by
  decide

/-- C6 as amended: an undersized output buffer (stated capacity < 4) is not
an error — the call writes no bytes, reports an output size of 0 and still
returns the ordinary MORE/DONE status; with capacity ≥ 4 exactly 4 bytes are
written and reported; and in no call do the bytes written exceed the stated
capacity. -/
theorem slice_capacity_respected (a : SliceArgs) (bit band : Int) :
    (a.capacity < 4 →
      (sliceCall a bit band).written = [] ∧
      (sliceCall a bit band).outSize = some 0 ∧
      (sliceCall a bit band).status ≠ -1) ∧
    (4 ≤ a.capacity →
      (sliceCall a bit band).written.length = 4 ∧
      (sliceCall a bit band).outSize = some 4) ∧
    ((sliceCall a bit band).written = [] ∨
      ((sliceCall a bit band).written.length : Int) ≤ a.capacity) := by
  simp only [sliceCall_written, sliceCall_outSize, sliceCall_status]
  refine ⟨?_, ?_, ?_⟩
  · intro hlt
    rw [if_neg (by omega), if_neg (by omega)]
    refine ⟨rfl, rfl, ?_⟩
    split_ifs <;> omega
  · intro hge
    rw [if_pos (by omega), if_pos (by omega)]
    exact ⟨rfl, rfl⟩
  · split_ifs with hc
    · right
      simp
      omega
    · left
      rfl

/-- Counterexample to C7 as stated: a call whose two quantization-table
pointers are both null (all other pointers valid) does NOT return the ERROR
status — the quantization tables are never validated. -/
theorem null_quant_table_not_checked :
    (iw44_encode_slice_simple (some [0]) 1 1 1 0 0 none none true (some 8)
        true true).status = 1 ∧
    ¬ (iw44_encode_slice_simple (some [0]) 1 1 1 0 0 none none true (some 8)
        true true).status = -1 := by
  decide

/-- C7 as amended: a null coefficient array, output buffer, output-size
pointer, next-bit pointer or next-band pointer makes the call return the
ERROR status (-1) before any encoding work, with nothing written through any
out-parameter; the two quantization-table pointers are not validated, and a
call that passes the five checks never returns ERROR, whatever the
quantization-table pointers are. -/
theorem slice_null_checks
    (coeffs : Option (List Int)) (nc w h bit band : Int)
    (ql qh : Option (List Int)) (ob : Bool) (os : Option Int)
    (nb nbd : Bool) :
    ((coeffs = none ∨ ob = false ∨ os = none ∨ nb = false ∨ nbd = false) →
      iw44_encode_slice_simple coeffs nc w h bit band ql qh ob os nb nbd
        = { status := -1, nextBit := none, nextBand := none, outSize := none,
            written := [] }) ∧
    (coeffs ≠ none → ob = true → os ≠ none → nb = true → nbd = true →
      (iw44_encode_slice_simple coeffs nc w h bit band ql qh ob os
          nb nbd).status ≠ -1) := by
  constructor
  · intro hor
    rw [iw44_encode_slice_simple, if_pos hor]
  · intro h1 h2 h3 h4 h5
    rw [iw44_encode_slice_simple, if_neg (by simp [h1, h2, h3, h4, h5])]
    simp only
    split_ifs <;> omega

/-- Modelled from the spec: the `IW44Image` encoder session that
`src/src/ffi/iw44_bridge.cpp` drives is not part of src/ (only its callers
are).  Per the spec the session carries cumulative slice and byte counters,
monotonically non-decreasing and mutated only by successful slice emissions,
and a terminal DONE flag that is set once the slice codec reports DONE and
never cleared. -/
structure SessionState where
  slices : Nat
  bytes : Nat
  done : Bool
  deriving Repr, DecidableEq

/-- Environment of one `encode_chunk` call that the embedding cannot compute:
what the inner (spec-modelled) encoder would emit on a non-terminal session
(`slicesEmitted`, `dataEmitted`, whether it hits an internal fault, whether
it reaches the terminal state), and whether the bridge's `malloc` for the
output copy fails. -/
structure ChunkOracle where
  slicesEmitted : Nat
  dataEmitted : List Nat
  innerFault : Bool
  reachesDone : Bool
  mallocFails : Bool
  deriving Repr, DecidableEq

/-- Modelled from the spec: `IW44Image::encode_chunk` (not in src/).  On a
session already in the terminal DONE state it returns status 0 (DONE) with an
empty stream and no mutation; on an internal fault it returns -1 with the
counters unchanged; otherwise it emits the oracle's data into the stream,
advances the slice counter by the slices emitted and the byte counter by the
bytes emitted, records whether the codec reached DONE, and returns 1. -/
def inner_encode_chunk (s : SessionState) (o : ChunkOracle) :
    SessionState × Int × List Nat :=
  if s.done then (s, 0, [])
  else if o.innerFault then (s, -1, [])
  else ({ slices := s.slices + o.slicesEmitted,
          bytes := s.bytes + o.dataEmitted.length,
          done := o.reachesDone }, 1, o.dataEmitted)

/-- Result of one call to the bridge entry point `iw44_encode_chunk`: the
session state after the call, the returned status, and what was written
through the `output_data`/`output_size` out-parameters (`none` when the call
left them untouched). -/
structure ChunkResult where
  newState : Option SessionState
  status : Int
  output : Option (List Nat)
  deriving Repr, DecidableEq

/-- Embedding of `iw44_encode_chunk` from `src/src/ffi/iw44_bridge.cpp`.
The C body: null-checks `encoder`, `parms`, `output_data`, `output_size`
(returning -1); runs the inner encode into a memory stream; returns the inner
result directly (without touching the out-parameters) when it is ≤ 0; then
`malloc`s a copy of the stream — returning -1 if the allocation fails, the
inner encode having already run — and otherwise hands the copy and its length
to the caller. -/
def iw44_encode_chunk (encoder : Option SessionState)
    (parms output_data output_size : Bool) (o : ChunkOracle) : ChunkResult :=
  match encoder with
  | none => ⟨none, -1, none⟩
  | some s =>
      if parms = false ∨ output_data = false ∨ output_size = false then
        ⟨some s, -1, none⟩
      else
        let r := inner_encode_chunk s o
        if r.2.1 ≤ 0 then ⟨some r.1, r.2.1, none⟩
        else if o.mallocFails then ⟨some r.1, -1, none⟩
        else ⟨some r.1, r.2.1, some r.2.2⟩

/-- Embedding of `iw44_get_slices` from `src/src/ffi/iw44_bridge.cpp`: -1 on
a null handle, else the session's slice counter (modelled from the spec:
`IW44Image::get_slices` is not in src/). -/
def iw44_get_slices (encoder : Option SessionState) : Int :=
  match encoder with
  | none => -1
  | some s => s.slices

/-- Embedding of `iw44_get_bytes` from `src/src/ffi/iw44_bridge.cpp`: -1 on a
null handle, else the session's byte counter (modelled from the spec:
`IW44Image::get_bytes` is not in src/). -/
def iw44_get_bytes (encoder : Option SessionState) : Int :=
  match encoder with
  | none => -1
  | some s => s.bytes

/-- Embedding of `iw44_encoder_free` from `src/src/ffi/iw44_bridge.cpp`: the
returned Bool records whether the call released the underlying session; on a
null handle the guard fails and nothing happens. -/
def iw44_encoder_free (encoder : Option SessionState) : Bool :=
  encoder.isSome

/-- Session state after `n` bridge `encode_chunk` calls with valid non-handle
pointers, the call number `k` running under oracle `os k`. -/
def chunkRunState (os : Nat → ChunkOracle) (s : Option SessionState) :
    Nat → Option SessionState
  | 0 => s
  | n + 1 => (iw44_encode_chunk (chunkRunState os s n) true true true
      (os n)).newState

/-- C3: a bridge `encode_chunk` call on a session in the terminal DONE state
returns status 0 (DONE, not an error) and writes nothing through the output
out-parameters (an empty result), and leaves the session — in particular its
slice and byte counters — unchanged; hence after any number of such calls the
state is still exactly the original one and every call returns the same
empty DONE result. -/
theorem encode_chunk_done_idempotent (s : SessionState) (hs : s.done = true)
    (os : Nat → ChunkOracle) (n : Nat) :
    chunkRunState os (some s) n = some s ∧
    iw44_encode_chunk (chunkRunState os (some s) n) true true true (os n)
      = ⟨some s, 0, none⟩ := by
  induction n with
  | zero =>
      refine ⟨rfl, ?_⟩
      simp [chunkRunState, iw44_encode_chunk, inner_encode_chunk, hs]
  | succ n ih =>
      have hstep : chunkRunState os (some s) (n + 1) = some s := by
        rw [chunkRunState, ih.2]
      refine ⟨hstep, ?_⟩
      rw [hstep]
      simp [iw44_encode_chunk, inner_encode_chunk, hs]

/-- Witness for C3 at a concrete DONE session with nonzero counters, after
two prior calls. -/
theorem encode_chunk_done_idempotent_witness :
    chunkRunState (fun _ => ⟨1, [7], false, false, false⟩)
        (some ⟨3, 5, true⟩) 2 = some ⟨3, 5, true⟩ ∧
    iw44_encode_chunk (chunkRunState (fun _ => ⟨1, [7], false, false, false⟩)
        (some ⟨3, 5, true⟩) 2) true true true ⟨1, [7], false, false, false⟩
      = ⟨some ⟨3, 5, true⟩, 0, none⟩ :=
  encode_chunk_done_idempotent ⟨3, 5, true⟩ rfl
    (fun _ => ⟨1, [7], false, false, false⟩) 2

/-- C4 fails on the code at the malloc-failure path: starting from a fresh
session with counters (0, 0), an `encode_chunk` call in which the inner
encode succeeds (emitting one slice of four bytes) but the bridge's `malloc`
for the output copy fails returns the ERROR status -1, yet the session's
counters have already advanced to (1, 4) — they are not left as they were
before the call, because the allocation happens only after the inner encode
has run. -/
theorem encode_chunk_malloc_fail_mutates_counters :
    iw44_encode_chunk (some ⟨0, 0, false⟩) true true true
        ⟨1, [170, 187, 204, 221], false, false, true⟩
      = ⟨some ⟨1, 4, false⟩, -1, none⟩ ∧
    iw44_get_slices (some ⟨1, 4, false⟩) ≠ iw44_get_slices (some ⟨0, 0, false⟩) ∧
    iw44_get_bytes (some ⟨1, 4, false⟩) ≠ iw44_get_bytes (some ⟨0, 0, false⟩) := by
  decide

/-- C9: every bridge operation invoked on a null session handle is a no-op or
an explicit error: `iw44_encode_chunk` returns -1 writing nothing through any
out-parameter, `iw44_get_slices` and `iw44_get_bytes` return -1, and
`iw44_encoder_free` releases nothing. -/
theorem null_handle_operations_safe (p q r : Bool) (o : ChunkOracle) :
    iw44_encode_chunk none p q r o = ⟨none, -1, none⟩ ∧
    iw44_get_slices none = -1 ∧
    iw44_get_bytes none = -1 ∧
    iw44_encoder_free none = false := by
  refine ⟨rfl, rfl, rfl, rfl⟩

/-- Outcome of a session-creation call: a fresh session handle, a null handle
(the C++ `catch (...)` turned an exception into `nullptr`), or a read through
the null pixel-buffer pointer — undefined behavior, which `catch (...)` does
not intercept. -/
inductive CreateOutcome
  | handle (s : SessionState)
  | nullHandle
  | nullDeref
  deriving Repr, DecidableEq

/-- Modelled from the spec: `GBitmap::create` and `IW44Image::create_encode`
are not in src/; per the spec (width and height are positive integers) they
are modelled as throwing — caught by the bridge and turned into a null
handle — on non-positive dimensions and succeeding otherwise.  The rest is
the embedding of `iw44_encoder_new_grayscale` from
`src/src/ffi/iw44_bridge.cpp`: the bitmap is created first, then the copy
loop reads `image_data[y * width + x]` for every pixel with NO null check on
`image_data`, so with positive dimensions and a null pixel buffer the very
first iteration dereferences a null pointer. -/
def iw44_encoder_new_grayscale (image_data : Option (List Nat))
    (width height : Int) (mask_data : Option (List Nat)) : CreateOutcome :=
  if ¬ (0 < width ∧ 0 < height) then CreateOutcome.nullHandle
  else
    match image_data with
    | none => CreateOutcome.nullDeref
    | some _ => CreateOutcome.handle ⟨0, 0, false⟩

/-- Modelled from the spec: `GPixmap::create` and `IW44Image::create_encode`
are not in src/ and are modelled exactly as in `iw44_encoder_new_grayscale`.
The embedding of `iw44_encoder_new_color` from `src/src/ffi/iw44_bridge.cpp`
likewise copies `image_data[(y * width + x) * 3]` and the two following
bytes for every pixel with NO null check on `image_data`. -/
def iw44_encoder_new_color (image_data : Option (List Nat))
    (width height : Int) (mask_data : Option (List Nat)) : CreateOutcome :=
  if ¬ (0 < width ∧ 0 < height) then CreateOutcome.nullHandle
  else
    match image_data with
    | none => CreateOutcome.nullDeref
    | some _ => CreateOutcome.handle ⟨0, 0, false⟩

/-- C8 fails on the code at the null-buffer path: with positive dimensions
(1×1) and a null pixel buffer, both creation entry points dereference the
null `image_data` pointer inside the copy loop — undefined behavior, not a
returned null handle — because neither function checks `image_data` before
reading it.  Non-positive dimensions do produce a null handle (the modelled
collaborator throws and `catch (...)` returns `nullptr`). -/
theorem new_session_null_buffer_dereferenced :
    iw44_encoder_new_grayscale none 1 1 none = CreateOutcome.nullDeref ∧
    iw44_encoder_new_grayscale none 1 1 none ≠ CreateOutcome.nullHandle ∧
    iw44_encoder_new_color none 1 1 none = CreateOutcome.nullDeref ∧
    iw44_encoder_new_color none 1 1 none ≠ CreateOutcome.nullHandle ∧
    iw44_encoder_new_grayscale (some [0]) 0 1 none
      = CreateOutcome.nullHandle ∧
    iw44_encoder_new_color (some [0, 0, 0]) 1 (-1) none
      = CreateOutcome.nullHandle := by
  decide

end IW44
